import Mathlib

/-!
Shallow embedding of the trade-offer engine of the go-steam repository
(package steam, file openid.go): the trade offer data model, the query
and mutation operations, and the pattern-based HTML extraction helpers.

The network transport, the JSON codec and the regular-expression engine
are standard-library collaborators of the embedded code.  Each operation
therefore takes the outcome of its single HTTP round trip (and, for
SendTradeOffer, the outcomes of payload marshalling, request construction
and the two clock reads) as an explicit argument; the decode of a JSON
body is represented by the decoded value or a decode error, exactly the
two outcomes json.Decode distinguishes.  The token pattern
token=([a-zA-Z0-9-_]+) of GetMyTradeToken is implemented directly over
character lists with the leftmost-match, greedy-run semantics of the Go
regexp package.
-/

namespace Steam

/-- Go error values: errors.New and fmt.Errorf produce a message string,
and errors are compared by that message here. -/
abbrev GoError := String

/-! Trade offer state constants (iota block in openid.go). -/

def TradeStateNone : Nat := 0

def TradeStateInvalid : Nat := 1

def TradeStateActive : Nat := 2

def TradeStateAccepted : Nat := 3

def TradeStateCountered : Nat := 4

def TradeStateExpired : Nat := 5

def TradeStateCanceled : Nat := 6

def TradeStateDeclined : Nat := 7

def TradeStateInvalidItems : Nat := 8

def TradeStateCreatedNeedsConfirmation : Nat := 9

def TradeStateCanceledByTwoFactor : Nat := 10

def TradeStateInEscrow : Nat := 11

/-! Confirmation method constants (iota block in openid.go). -/

def TradeConfirmationNone : Nat := 0

def TradeConfirmationEmail : Nat := 1

def TradeConfirmationMobileApp : Nat := 2

def TradeConfirmationMobile : Nat := 3

/-! Trade offer filter flags (iota block with shifts in openid.go; the
shift 1 <<< 2 is skipped by the source). -/

def TradeFilterNone : Nat := 0

def TradeFilterSentOffers : Nat := 1

def TradeFilterRecvOffers : Nat := 2

def TradeFilterActiveOnly : Nat := 8

def TradeFilterHistoricalOnly : Nat := 16

def TradeFilterItemDescriptions : Nat := 32

/-! Error values declared in openid.go. -/

def ErrReceiptMatch : GoError := "unable to match items in trade receipt"

def ErrCannotAcceptActive : GoError := "unable to accept a non-active trade"

def ErrCannotFindOfferInfo : GoError := "unable to match data from trade offer url"

/-- Modelled from the spec: APIBaseUrl, the versioned API namespace base
of the JSON endpoints, is defined in a repository file outside the given
sources; only its role as a fixed base string matters here. -/
def APIBaseUrl : String := "https://api.steampowered.com"

def apiGetTradeOffer : String := APIBaseUrl ++ "/IEconService/GetTradeOffer/v1/?"

def apiGetTradeOffers : String := APIBaseUrl ++ "/IEconService/GetTradeOffers/v1/?"

def apiGetTradeOffersSummary : String := APIBaseUrl ++ "/IEconService/GetTradeOffersSummary/v1/?"

def apiDeclineTradeOffer : String := APIBaseUrl ++ "/IEconService/DeclineTradeOffer/v1/"

def apiCancelTradeOffer : String := APIBaseUrl ++ "/IEconService/CancelTradeOffer/v1/"

/-- EconItem of openid.go; string-typed numeric wire fields stay strings. -/
structure EconItem where
  AssetID : String
  InstanceID : String
  ClassID : String
  AppID : Nat
  ContextID : String
  Amount : String
  Missing : Bool
  EstUSD : Nat
deriving Repr, DecidableEq

/-- EconDesc of openid.go. -/
structure EconDesc where
  «Type» : String
  Value : String
  Name : String
  Color : String
deriving Repr, DecidableEq

/-- EconTag of openid.go. -/
structure EconTag where
  Category : String
  InternalName : String
  LocalizedCategoryName : String
  LocalizedTagName : String
  Color : String
deriving Repr, DecidableEq

/-- EconAction of openid.go. -/
structure EconAction where
  Link : String
  Name : String
deriving Repr, DecidableEq

/-- EconItemDesc of openid.go. -/
structure EconItemDesc where
  ClassID : Nat
  InstanceID : Nat
  Currency : Int
  BackgroundColor : String
  IconURL : String
  IconLargeURL : String
  Tradable : Int
  Name : String
  NameColor : String
  «Type» : String
  MarketName : String
  MarketHashName : String
  Commodity : Int
  MarketTradableRestriction : Int
  MarketMarketableRestriction : Int
  Marketable : Int
  Actions : List EconAction
  Tags : List EconTag
  Descriptions : List EconDesc
deriving Repr, DecidableEq

/-- TradeOffer of openid.go.  Go integer widths: ID and ReceiptID are
uint64, Partner uint32, State and ConfirmationMethod uint8, the four
timestamps int64.  No operation of the file performs arithmetic that can
overflow them, so they are carried as Nat and Int. -/
structure TradeOffer where
  ID : Nat
  Partner : Nat
  ReceiptID : Nat
  RecvItems : List EconItem
  SendItems : List EconItem
  Message : String
  State : Nat
  ConfirmationMethod : Nat
  Created : Int
  Updated : Int
  Expires : Int
  EscrowEndDate : Int
  RealTime : Bool
  IsOurOffer : Bool
deriving Repr, DecidableEq

/-- TradeOfferResponse of openid.go (the inner object of the envelope);
Go pointer and slice fields become Option and List. -/
structure TradeOfferResponse where
  Offer : Option TradeOffer
  SentOffers : List TradeOffer
  ReceivedOffers : List TradeOffer
  Descriptions : List EconItemDesc
deriving Repr, DecidableEq

/-- APIResponse of openid.go: the envelope with a single response field;
Inner is a pointer in Go, nil when the decoded body has no response
object, hence Option here. -/
structure APIResponse where
  Inner : Option TradeOfferResponse
deriving Repr, DecidableEq

/-- The fields of the Session structure that openid.go reads; the rest of
the structure (HTTP client, login state) lives in other files and is
abstracted behind the per-operation round-trip arguments. -/
structure Session where
  apiKey : String
  sessionID : String

/-- Modelled from the spec: SteamID, the 64-bit account handle, is
defined outside the given sources; SendTradeOffer only forwards it into
the request, which the round-trip argument already accounts for. -/
abbrev SteamID := Nat

/-- testBit of openid.go: (bits & bit) == bit. -/
def testBit (bits bit : Nat) : Bool :=
  (bits &&& bit) == bit

/-- The url.Values assembled by GetTradeOffers before encoding, in the
order the source issues params.Set: the api key always, then one group
per filter flag tested with testBit.  All keys are distinct, so the
sequence of Set calls is the association list below, and a parameter is
part of the encoded query exactly when it is part of this list. -/
def getTradeOffersParams (apiKey : String) (filter : Nat) (cutoffUnix : Int) :
    List (String × String) :=
  let p := [("key", apiKey)]
  let p := if testBit filter TradeFilterSentOffers then
      p ++ [("get_sent_offers", "1")] else p
  let p := if testBit filter TradeFilterRecvOffers then
      p ++ [("get_received_offers", "1")] else p
  let p := if testBit filter TradeFilterActiveOnly then
      p ++ [("active_only", "1"), ("time_historical_cutoff", toString cutoffUnix)] else p
  let p := if testBit filter TradeFilterItemDescriptions then
      p ++ [("get_descriptions", "1")] else p
  let p := if testBit filter TradeFilterHistoricalOnly then
      p ++ [("historical_only", "1")] else p
  p

/-- Decode outcome of the GetTradeOffer response body: json.Decode either
fails, or yields an APIResponse whose Inner pointer is nil exactly when
the body carries no response object. -/
inductive APIBody where
  | undecodable (e : GoError)
  | decoded (inner : Option TradeOfferResponse)

/-- Outcome of the single client.Get round trip of GetTradeOffer. -/
inductive GetRoundTrip where
  | transportErr (e : GoError)
  | nilResp
  | resp (body : APIBody)

/-- Result of a Go call returning (value, error); nilPanic marks a nil
pointer dereference inside the callee, a runtime panic rather than a
returned value. -/
inductive GoValue (α : Type) where
  | ok (a : α)
  | err (e : GoError)
  | nilPanic
deriving Repr, DecidableEq

/-- True exactly when the call returned a non-nil error value. -/
def GoValue.isErr {α : Type} : GoValue α → Bool
  | .err _ => true
  | _ => false

/-- The query GetTradeOffer sends: api key and the decimal offer id. -/
def getTradeOfferQuery (s : Session) (id : Nat) : List (String × String) :=
  [("key", s.apiKey), ("tradeofferid", toString id)]

/-- GetTradeOffer of openid.go.  The client argument maps the encoded
query to the round-trip outcome.  The source returns
response.Inner.Offer with no nil check on Inner, so a decodable body
without a response object dereferences nil. -/
def getTradeOffer (s : Session) (client : List (String × String) → GetRoundTrip)
    (id : Nat) : GoValue (Option TradeOffer) :=
  match client (getTradeOfferQuery s id) with
  | .transportErr e => .err e
  | .nilResp => .err "invalid response"
  | .resp (.undecodable e) => .err e
  | .resp (.decoded none) => .nilPanic
  | .resp (.decoded (some inner)) => .ok inner.Offer

/-- The anonymous response structure decoded by SendTradeOffer. -/
structure SendResponseBody where
  ErrorMessage : String
  ID : Nat
  MobileConfirmationRequired : Bool
  EmailConfirmationRequired : Bool
  EmailDomain : String
deriving Repr, DecidableEq

/-- Decode outcome of the SendTradeOffer response body. -/
inductive SendBody where
  | undecodable (e : GoError)
  | decoded (r : SendResponseBody)

/-- Outcome of the single client.Do round trip of SendTradeOffer. -/
inductive SendRoundTrip where
  | transportErr (e : GoError)
  | nilResp
  | resp (body : SendBody)

/-- The effectful collaborators of one SendTradeOffer call: the outcome
of json.Marshal of the content map, the outcome of http.NewRequest, the
round trip, and the values of the two successive time.Now().Unix()
reads. -/
structure SendEnv where
  marshalErr : Option GoError
  newRequestErr : Option GoError
  roundTrip : SendRoundTrip
  nowCreated : Int
  nowUpdated : Int

/-- SendTradeOffer of openid.go as a state transition: the Go method
mutates the offer through a pointer, so the embedding returns the error
result together with the post-call offer value.  All error returns of
the source happen before the first field assignment. -/
def sendTradeOffer (s : Session) (env : SendEnv) (offer : TradeOffer)
    (sid : SteamID) (token : String) : Except GoError Unit × TradeOffer :=
  match env.marshalErr with
  | some e => (.error e, offer)
  | none =>
    match env.newRequestErr with
    | some e => (.error e, offer)
    | none =>
      match env.roundTrip with
      | .transportErr e => (.error e, offer)
      | .nilResp => (.error "invalid response", offer)
      | .resp (.undecodable e) => (.error e, offer)
      | .resp (.decoded r) =>
        if r.ErrorMessage.length ≠ 0 then (.error r.ErrorMessage, offer)
        else if r.ID = 0 then (.error "no OfferID included", offer)
        else
          let o1 : TradeOffer :=
            { offer with
              ID := r.ID
              Created := env.nowCreated
              Updated := env.nowUpdated
              Expires := env.nowCreated + 14 * 24 * 60 * 60
              RealTime := false
              IsOurOffer := true }
          if r.MobileConfirmationRequired then
            (.ok (), { o1 with
              ConfirmationMethod := TradeConfirmationMobileApp
              State := TradeStateCreatedNeedsConfirmation })
          else
            (.ok (), { o1 with State := TradeStateActive })

/-- Modelled from the spec: InventoryItem, the record decoded from each
receipt fragment, is defined in the inventory file outside the given
sources; the receipt claims depend only on its identity, so it carries
the asset, class and instance identifiers the spec names. -/
structure InventoryItem where
  AssetID : Nat
  ClassID : Nat
  InstanceID : Nat
deriving Repr, DecidableEq

/-- One fragment matched by receiptExp in the receipt page, abstracted
by its json.Unmarshal outcome: the capture either decodes to an
InventoryItem or fails with an error. -/
inductive Fragment where
  | item (it : InventoryItem)
  | bad (e : GoError)
deriving Repr, DecidableEq

/-- The decode loop of GetTradeReceivedItems: items in source order, and
the first fragment that fails to decode aborts the whole call with its
error. -/
def unmarshalAll : List Fragment → Except GoError (List InventoryItem)
  | [] => .ok []
  | .bad e :: _ => .error e
  | .item it :: fs =>
    match unmarshalAll fs with
    | .error e => .error e
    | .ok l => .ok (it :: l)

/-- Body outcome of the receipt page fetch: io.ReadAll either fails or
yields the body, abstracted by the FindAllSubmatch result of receiptExp;
the Go nil result for zero matches is the empty list. -/
inductive ReceiptBody where
  | readErr (e : GoError)
  | matches (ms : List Fragment)

/-- Outcome of the single client.Get round trip of GetTradeReceivedItems. -/
inductive ReceiptRoundTrip where
  | transportErr (e : GoError)
  | nilResp
  | resp (status : Nat) (body : ReceiptBody)

/-- GetTradeReceivedItems of openid.go. -/
def getTradeReceivedItems (env : ReceiptRoundTrip) :
    Except GoError (List InventoryItem) :=
  match env with
  | .transportErr e => .error e
  | .nilResp => .error "invalid response"
  | .resp status body =>
    if status ≠ 200 then .error ("http error: " ++ toString status)
    else
      match body with
      | .readErr e => .error e
      | .matches ms =>
        if ms.isEmpty then .error ErrReceiptMatch
        else unmarshalAll ms

/-- Character class [a-zA-Z0-9-_] of offerInfoExp. -/
def isTokenChar (c : Char) : Bool :=
  c.isAlpha || c.isDigit || c == '-' || c == '_'

/-- Strips a literal from the head of the input, or fails. -/
def stripLit : List Char → List Char → Option (List Char)
  | [], s => some s
  | _ :: _, [] => none
  | p :: ps, c :: cs => if c = p then stripLit ps cs else none

/-- The Go regexp search for token=([a-zA-Z0-9-_]+): try each start
position from the left; at the first position where the literal token=
is followed by at least one class character, the greedy capture is the
maximal class-character run, and the search yields the capture together
with the input remaining after the match.  FindStringSubmatch returns
the first such match, so its result for this pattern is exactly this
function (the non-nil result always has length two: whole match plus the
single capture group, so the length check of the source never fires on a
non-nil match). -/
def findTokenMatch : List Char → Option (List Char × List Char)
  | [] => none
  | c :: cs =>
    match stripLit "token=".toList (c :: cs) with
    | some (r :: rs) =>
      if isTokenChar r then
        some ((r :: rs).takeWhile isTokenChar, (r :: rs).dropWhile isTokenChar)
      else
        findTokenMatch cs
    | _ => findTokenMatch cs

/-- Body outcome of the trade-privacy page fetch of GetMyTradeToken. -/
inductive TokenBody where
  | readErr (e : GoError)
  | content (body : List Char)

/-- Outcome of the single client.Get round trip of GetMyTradeToken. -/
inductive TokenRoundTrip where
  | transportErr (e : GoError)
  | nilResp
  | resp (status : Nat) (body : TokenBody)

/-- GetMyTradeToken of openid.go. -/
def getMyTradeToken (env : TokenRoundTrip) : Except GoError String :=
  match env with
  | .transportErr e => .error e
  | .nilResp => .error "invalid response"
  | .resp status body =>
    if status ≠ 200 then .error ("http error: " ++ toString status)
    else
      match body with
      | .readErr e => .error e
      | .content b =>
        match findTokenMatch b with
        | none => .error ErrCannotFindOfferInfo
        | some (run, _) => .ok (String.mk run)

/-- Decode outcome of the AcceptTradeOffer response body: the anonymous
structure holds only the strError field. -/
inductive AcceptBody where
  | undecodable (e : GoError)
  | decoded (errorMessage : String)

/-- Outcome of the single client.Do round trip of AcceptTradeOffer. -/
inductive AcceptRoundTrip where
  | transportErr (e : GoError)
  | nilResp
  | resp (status : Nat) (body : AcceptBody)

/-- The effectful collaborators of one AcceptTradeOffer call. -/
structure AcceptEnv where
  newRequestErr : Option GoError
  roundTrip : AcceptRoundTrip

/-- AcceptTradeOffer of openid.go: builds the accept POST from the offer
id alone, checks the HTTP status, decodes the body and fails exactly on
a non-empty strError.  The local offer state is never consulted and
ErrCannotAcceptActive, although declared in the source, is never
returned. -/
def acceptTradeOffer (s : Session) (env : AcceptEnv) (id : Nat) :
    Except GoError Unit :=
  match env.newRequestErr with
  | some e => .error e
  | none =>
    match env.roundTrip with
    | .transportErr e => .error e
    | .nilResp => .error "invalid response"
    | .resp status body =>
      if status ≠ 200 then .error ("http error: " ++ toString status)
      else
        match body with
        | .undecodable e => .error e
        | .decoded msg =>
          if msg.length ≠ 0 then .error msg else .ok ()

/-- Accept of openid.go: forwards the offer id to AcceptTradeOffer. -/
def TradeOffer.Accept (offer : TradeOffer) (s : Session) (env : AcceptEnv) :
    Except GoError Unit :=
  acceptTradeOffer s env offer.ID

/-- Outcome of one client.PostForm round trip of Decline or Cancel:
their handlers read only the x-eresult response header. -/
inductive FormRoundTrip where
  | transportErr (e : GoError)
  | nilResp
  | resp (xeresult : String)

/-- The shared response handling of DeclineTradeOffer and
CancelTradeOffer: a missing response is invalid, an x-eresult header
other than the literal 1 fails with the raw code appended to the given
message head. -/
def eresultHandle (msgHead : String) : FormRoundTrip → Except GoError Unit
  | .transportErr e => .error e
  | .nilResp => .error "invalid response"
  | .resp r => if r = "1" then .ok () else .error (msgHead ++ r)

/-- DeclineTradeOffer of openid.go: PostForm to the decline endpoint with
the api key and the decimal offer id.  The client argument maps the
endpoint url and the form to the round-trip outcome. -/
def declineTradeOffer (s : Session)
    (client : String → List (String × String) → FormRoundTrip) (id : Nat) :
    Except GoError Unit :=
  eresultHandle "cannot decline trade: "
    (client apiDeclineTradeOffer [("key", s.apiKey), ("tradeofferid", toString id)])

/-- CancelTradeOffer of openid.go: PostForm to the cancel endpoint with
the api key and the decimal offer id. -/
def cancelTradeOffer (s : Session)
    (client : String → List (String × String) → FormRoundTrip) (id : Nat) :
    Except GoError Unit :=
  eresultHandle "cannot cancel trade: "
    (client apiCancelTradeOffer [("key", s.apiKey), ("tradeofferid", toString id)])

/-- Cancel of openid.go: ownership-based dispatch between the cancel and
decline endpoints, both on the own offer id. -/
def TradeOffer.Cancel (offer : TradeOffer) (s : Session)
    (client : String → List (String × String) → FormRoundTrip) :
    Except GoError Unit :=
  if offer.IsOurOffer then cancelTradeOffer s client offer.ID
  else declineTradeOffer s client offer.ID

/-! Concrete inputs used by witnesses and counterexamples. -/

/-- A concrete session. -/
def session0 : Session := { apiKey := "k", sessionID := "s" }

/-- A concrete offer in its pre-creation state. -/
def offer0 : TradeOffer :=
  { ID := 0, Partner := 7, ReceiptID := 0, RecvItems := [], SendItems := []
    Message := "hi", State := 0, ConfirmationMethod := 3, Created := 0
    Updated := 0, Expires := 0, EscrowEndDate := 0, RealTime := true
    IsOurOffer := false }

/-- A concrete declined offer. -/
def declinedOffer : TradeOffer := { offer0 with ID := 42, State := TradeStateDeclined }

/-- A fully successful accept round trip: HTTP 200 and an empty strError. -/
def acceptEnvOk : AcceptEnv :=
  { newRequestErr := none, roundTrip := .resp 200 (.decoded "") }

/-- A decoded envelope whose response object carries no offer. -/
def innerEmpty : TradeOfferResponse :=
  { Offer := none, SentOffers := [], ReceivedOffers := [], Descriptions := [] }

/-- A client answering every query with an envelope that has a response
object but no offer. -/
def clientEmptyOffer : List (String × String) → GetRoundTrip :=
  fun _ => .resp (.decoded (some innerEmpty))

/-- A client answering every query with a decodable body that has no
response object at all. -/
def clientNoInner : List (String × String) → GetRoundTrip :=
  fun _ => .resp (.decoded none)

/-- A send response signalling mobile confirmation. -/
def sendRespMobile : SendResponseBody :=
  { ErrorMessage := "", ID := 5, MobileConfirmationRequired := true
    EmailConfirmationRequired := false, EmailDomain := "" }

/-- A send response signalling no mobile confirmation (email flag set,
which the source ignores). -/
def sendRespPlain : SendResponseBody :=
  { ErrorMessage := "", ID := 6, MobileConfirmationRequired := false
    EmailConfirmationRequired := true, EmailDomain := "example.org" }

/-- A successful send environment whose server demands mobile
confirmation. -/
def sendEnvMobile : SendEnv :=
  { marshalErr := none, newRequestErr := none
    roundTrip := .resp (.decoded sendRespMobile), nowCreated := 100, nowUpdated := 101 }

/-- A successful send environment without a confirmation demand. -/
def sendEnvPlain : SendEnv :=
  { marshalErr := none, newRequestErr := none
    roundTrip := .resp (.decoded sendRespPlain), nowCreated := 200, nowUpdated := 201 }

/-- A send environment failing at payload marshalling. -/
def sendEnvMarshalFail : SendEnv :=
  { marshalErr := some "marshal failure", newRequestErr := none
    roundTrip := .resp (.decoded sendRespMobile), nowCreated := 100, nowUpdated := 101 }

/-- A concrete inventory item. -/
def item0 : InventoryItem := { AssetID := 11, ClassID := 22, InstanceID := 33 }

/-- A receipt page body with two token occurrences. -/
def tokenPage2 : List Char := "token=aa token=bb".toList

/-! Helper lemmas. -/

theorem unmarshalAll_map_item (its : List InventoryItem) :
    unmarshalAll (its.map Fragment.item) = Except.ok its := by
  induction its with
  | nil => rfl
  | cons it its ih => simp [unmarshalAll, ih]

theorem unmarshalAll_first_bad (its : List InventoryItem) (e : GoError)
    (rest : List Fragment) :
    unmarshalAll (its.map Fragment.item ++ Fragment.bad e :: rest) = Except.error e := by
  induction its with
  | nil => rfl
  | cons it its ih => simp [unmarshalAll, ih]

/-! Claim theorems. -/

/-- C1: the claim that accepting a non-Active offer fails locally with
ErrCannotAcceptActive is refuted by the code: the Accept result never
depends on the local State field, and a Declined offer accepts
successfully against a successful round trip instead of returning
ErrCannotAcceptActive, which the source declares but never uses. -/
theorem accept_ignores_local_state :
    (∀ (offer : TradeOffer) (s : Session) (env : AcceptEnv) (st : Nat),
      TradeOffer.Accept { offer with State := st } s env = TradeOffer.Accept offer s env) ∧
    declinedOffer.State ≠ TradeStateActive ∧
    TradeOffer.Accept declinedOffer session0 acceptEnvOk = Except.ok () ∧
    TradeOffer.Accept declinedOffer session0 acceptEnvOk ≠ Except.error ErrCannotAcceptActive := by
  refine ⟨fun offer s env st => rfl, by decide, rfl, fun h => Except.noConfusion h⟩

/-- C3: Cancel dispatches on ownership: with IsOurOffer true the request
goes to the cancel endpoint, otherwise to the decline endpoint, in both
cases with the own offer id in the form; the two endpoints are distinct
urls. -/
theorem cancel_dispatch :
    (∀ (offer : TradeOffer) (s : Session)
      (client : String → List (String × String) → FormRoundTrip),
      offer.Cancel s client =
        if offer.IsOurOffer then
          eresultHandle "cannot cancel trade: "
            (client apiCancelTradeOffer
              [("key", s.apiKey), ("tradeofferid", toString offer.ID)])
        else
          eresultHandle "cannot decline trade: "
            (client apiDeclineTradeOffer
              [("key", s.apiKey), ("tradeofferid", toString offer.ID)])) ∧
    apiCancelTradeOffer ≠ apiDeclineTradeOffer := by
  constructor
  · intro offer s client
    cases h : offer.IsOurOffer <;>
      simp [TradeOffer.Cancel, cancelTradeOffer, declineTradeOffer, h]
  · decide

/-- C4 counterexample: on a decodable body whose response object carries
no offer, GetTradeOffer succeeds with a nil offer instead of failing;
and on a decodable body without a response object it panics on a nil
dereference instead of failing. -/
theorem getTradeOffer_empty_envelope_counterexample :
    getTradeOffer session0 clientEmptyOffer 1 = GoValue.ok none ∧
    GoValue.isErr (getTradeOffer session0 clientEmptyOffer 1) = false ∧
    getTradeOffer session0 clientNoInner 2 = GoValue.nilPanic :=
  ⟨rfl, rfl, rfl⟩

/-- C4 amended: when the decoded envelope has a response object,
GetTradeOffer succeeds and returns its offer field, a nil offer
included; when the decodable body has no response object the call
dereferences nil; network and JSON-decoding failures are returned as
errors. -/
theorem getTradeOffer_envelope_behaviour (s : Session)
    (client : List (String × String) → GetRoundTrip) (id : Nat) :
    (∀ inner, client (getTradeOfferQuery s id) =
        GetRoundTrip.resp (APIBody.decoded (some inner)) →
      getTradeOffer s client id = GoValue.ok inner.Offer) ∧
    (client (getTradeOfferQuery s id) = GetRoundTrip.resp (APIBody.decoded none) →
      getTradeOffer s client id = GoValue.nilPanic) ∧
    (∀ e, client (getTradeOfferQuery s id) = GetRoundTrip.transportErr e →
      getTradeOffer s client id = GoValue.err e) ∧
    (∀ e, client (getTradeOfferQuery s id) = GetRoundTrip.resp (APIBody.undecodable e) →
      getTradeOffer s client id = GoValue.err e) := by
  refine ⟨?_, ?_, ?_, ?_⟩
  · intro inner h
    simp [getTradeOffer, h]
  · intro h
    simp [getTradeOffer, h]
  · intro e h
    simp [getTradeOffer, h]
  · intro e h
    simp [getTradeOffer, h]

/-- C4 witness: the amended behaviour at two concrete clients. -/
theorem getTradeOffer_envelope_behaviour_witness :
    getTradeOffer session0 clientNoInner 2 = GoValue.nilPanic ∧
    getTradeOffer session0 clientEmptyOffer 1 = GoValue.ok innerEmpty.Offer :=
  ⟨(getTradeOffer_envelope_behaviour session0 clientNoInner 2).2.1 rfl,
   (getTradeOffer_envelope_behaviour session0 clientEmptyOffer 1).1 innerEmpty rfl⟩

/-- C5: on a 200 receipt page, zero pattern matches fail with
ErrReceiptMatch; when every one of the N matched fragments decodes, the
call returns exactly those N items in source order; the first fragment
that fails to decode makes the whole call fail with its decode error. -/
theorem receipt_items_spec :
    (getTradeReceivedItems (ReceiptRoundTrip.resp 200 (ReceiptBody.matches [])) =
      Except.error ErrReceiptMatch) ∧
    (∀ its : List InventoryItem, its ≠ [] →
      getTradeReceivedItems
          (ReceiptRoundTrip.resp 200 (ReceiptBody.matches (its.map Fragment.item))) =
        Except.ok its) ∧
    (∀ (its : List InventoryItem) (e : GoError) (rest : List Fragment),
      getTradeReceivedItems (ReceiptRoundTrip.resp 200
          (ReceiptBody.matches (its.map Fragment.item ++ Fragment.bad e :: rest))) =
        Except.error e) := by
  refine ⟨rfl, ?_, ?_⟩
  · intro its hne
    cases its with
    | nil => exact absurd rfl hne
    | cons it its => simp [getTradeReceivedItems, unmarshalAll, unmarshalAll_map_item]
  · intro its e rest
    cases its with
    | nil => simp [getTradeReceivedItems, unmarshalAll]
    | cons it its => simp [getTradeReceivedItems, unmarshalAll, unmarshalAll_first_bad]

/-- C5 witness: one decodable fragment yields exactly that item; a
decodable fragment followed by an undecodable one fails with the decode
error. -/
theorem receipt_items_spec_witness :
    ([item0] ≠ ([] : List InventoryItem)) ∧
    (getTradeReceivedItems
        (ReceiptRoundTrip.resp 200 (ReceiptBody.matches [Fragment.item item0])) =
      Except.ok [item0]) ∧
    (getTradeReceivedItems (ReceiptRoundTrip.resp 200
        (ReceiptBody.matches [Fragment.item item0, Fragment.bad "boom"])) =
      Except.error "boom") := by
  refine ⟨by simp, ?_, ?_⟩
  · exact receipt_items_spec.2.1 [item0] (by simp)
  · exact receipt_items_spec.2.2 [item0] "boom" []

/-- C2: on a successful SendTradeOffer, the offer ends in
CreatedNeedsConfirmation with ConfirmationMethod MobileApp exactly when
the decoded response signals mobile confirmation, and in Active
otherwise; the email-confirmation signal of the response never changes
the outcome. -/
theorem sendTradeOffer_confirmation_iff (s : Session) (env : SendEnv)
    (offer : TradeOffer) (sid : SteamID) (token : String) (r : SendResponseBody)
    (hr : env.roundTrip = SendRoundTrip.resp (SendBody.decoded r))
    (hok : (sendTradeOffer s env offer sid token).1 = Except.ok ()) :
    (((sendTradeOffer s env offer sid token).2.State = TradeStateCreatedNeedsConfirmation ∧
      (sendTradeOffer s env offer sid token).2.ConfirmationMethod = TradeConfirmationMobileApp) ↔
      r.MobileConfirmationRequired = true) ∧
    (r.MobileConfirmationRequired = false →
      (sendTradeOffer s env offer sid token).2.State = TradeStateActive) ∧
    (∀ b : Bool,
      sendTradeOffer s
        { env with roundTrip := SendRoundTrip.resp (SendBody.decoded
            { r with EmailConfirmationRequired := b }) } offer sid token =
      sendTradeOffer s env offer sid token) := by
  obtain ⟨mE, nE, rt, nC, nU⟩ := env
  have hr2 : rt = SendRoundTrip.resp (SendBody.decoded r) := hr
  subst hr2
  cases mE with
  | some e1 => simp [sendTradeOffer] at hok
  | none =>
    cases nE with
    | some e1 => simp [sendTradeOffer] at hok
    | none =>
      by_cases h1 : r.ErrorMessage.length = 0
      · by_cases h2 : r.ID = 0
        · simp [sendTradeOffer, h1, h2] at hok
        · cases h3 : r.MobileConfirmationRequired <;>
            simp [sendTradeOffer, h1, h2, h3, TradeStateCreatedNeedsConfirmation,
              TradeStateActive, TradeConfirmationMobileApp]
      · simp [sendTradeOffer, h1] at hok

/-- C2 witness: a concrete successful send with the mobile flag set ends
in CreatedNeedsConfirmation with method MobileApp. -/
theorem sendTradeOffer_confirmation_iff_witness :
    (sendTradeOffer session0 sendEnvMobile offer0 0 "").2.State =
      TradeStateCreatedNeedsConfirmation ∧
    (sendTradeOffer session0 sendEnvMobile offer0 0 "").2.ConfirmationMethod =
      TradeConfirmationMobileApp := by
  have h := sendTradeOffer_confirmation_iff session0 sendEnvMobile offer0 0 ""
    sendRespMobile rfl rfl
  exact h.1.mpr rfl

/-- C6: on a successful SendTradeOffer the mutated offer satisfies
Expires equal to Created plus fourteen days in seconds and IsOurOffer
true, with Created and Updated assigned the values of the two clock
reads made during the call. -/
theorem sendTradeOffer_success_timestamps (s : Session) (env : SendEnv)
    (offer : TradeOffer) (sid : SteamID) (token : String)
    (hok : (sendTradeOffer s env offer sid token).1 = Except.ok ()) :
    (sendTradeOffer s env offer sid token).2.Expires =
      (sendTradeOffer s env offer sid token).2.Created + 14 * 24 * 3600 ∧
    (sendTradeOffer s env offer sid token).2.IsOurOffer = true ∧
    (sendTradeOffer s env offer sid token).2.Created = env.nowCreated ∧
    (sendTradeOffer s env offer sid token).2.Updated = env.nowUpdated := by
  obtain ⟨mE, nE, rt, nC, nU⟩ := env
  cases mE with
  | some e1 => simp [sendTradeOffer] at hok
  | none =>
    cases nE with
    | some e1 => simp [sendTradeOffer] at hok
    | none =>
      cases rt with
      | transportErr e1 => simp [sendTradeOffer] at hok
      | nilResp => simp [sendTradeOffer] at hok
      | resp b =>
        cases b with
        | undecodable e1 => simp [sendTradeOffer] at hok
        | decoded r =>
          by_cases h1 : r.ErrorMessage.length = 0
          · by_cases h2 : r.ID = 0
            · simp [sendTradeOffer, h1, h2] at hok
            · cases h3 : r.MobileConfirmationRequired <;>
                simp [sendTradeOffer, h1, h2, h3]
          · simp [sendTradeOffer, h1] at hok

/-- C6 witness: the timestamp and ownership facts at a concrete
successful send. -/
theorem sendTradeOffer_success_timestamps_witness :
    ((sendTradeOffer session0 sendEnvMobile offer0 0 "").1 = Except.ok ()) ∧
    ((sendTradeOffer session0 sendEnvMobile offer0 0 "").2.Expires =
      (sendTradeOffer session0 sendEnvMobile offer0 0 "").2.Created + 14 * 24 * 3600 ∧
    (sendTradeOffer session0 sendEnvMobile offer0 0 "").2.IsOurOffer = true ∧
    (sendTradeOffer session0 sendEnvMobile offer0 0 "").2.Created = 100 ∧
    (sendTradeOffer session0 sendEnvMobile offer0 0 "").2.Updated = 101) :=
  ⟨rfl, sendTradeOffer_success_timestamps session0 sendEnvMobile offer0 0 "" rfl⟩

/-- C9: SendTradeOffer is atomic on failure: whenever it returns an
error, the post-call offer equals the pre-call offer in every field. -/
theorem sendTradeOffer_error_frame (s : Session) (env : SendEnv)
    (offer : TradeOffer) (sid : SteamID) (token : String) (e : GoError)
    (herr : (sendTradeOffer s env offer sid token).1 = Except.error e) :
    (sendTradeOffer s env offer sid token).2 = offer := by
  obtain ⟨mE, nE, rt, nC, nU⟩ := env
  cases mE with
  | some e1 => rfl
  | none =>
    cases nE with
    | some e1 => rfl
    | none =>
      cases rt with
      | transportErr e1 => rfl
      | nilResp => rfl
      | resp b =>
        cases b with
        | undecodable e1 => rfl
        | decoded r =>
          by_cases h1 : r.ErrorMessage.length = 0
          · by_cases h2 : r.ID = 0
            · simp [sendTradeOffer, h1, h2]
            · cases h3 : r.MobileConfirmationRequired <;>
                simp [sendTradeOffer, h1, h2, h3] at herr
          · simp [sendTradeOffer, h1]

/-- C9 witness: a send failing at payload marshalling leaves the offer
unchanged. -/
theorem sendTradeOffer_error_frame_witness :
    ((sendTradeOffer session0 sendEnvMarshalFail offer0 0 "").1 =
      Except.error "marshal failure") ∧
    (sendTradeOffer session0 sendEnvMarshalFail offer0 0 "").2 = offer0 :=
  ⟨rfl, sendTradeOffer_error_frame session0 sendEnvMarshalFail offer0 0 ""
    "marshal failure" rfl⟩

/-- C10: on a successful SendTradeOffer, Partner, Message, SendItems,
RecvItems, ReceiptID and EscrowEndDate keep their pre-call values, and
when the response does not signal mobile confirmation the
ConfirmationMethod also keeps its pre-call value instead of being
reset. -/
theorem sendTradeOffer_success_frame (s : Session) (env : SendEnv)
    (offer : TradeOffer) (sid : SteamID) (token : String) (r : SendResponseBody)
    (hr : env.roundTrip = SendRoundTrip.resp (SendBody.decoded r))
    (hok : (sendTradeOffer s env offer sid token).1 = Except.ok ()) :
    (sendTradeOffer s env offer sid token).2.Partner = offer.Partner ∧
    (sendTradeOffer s env offer sid token).2.Message = offer.Message ∧
    (sendTradeOffer s env offer sid token).2.SendItems = offer.SendItems ∧
    (sendTradeOffer s env offer sid token).2.RecvItems = offer.RecvItems ∧
    (sendTradeOffer s env offer sid token).2.ReceiptID = offer.ReceiptID ∧
    (sendTradeOffer s env offer sid token).2.EscrowEndDate = offer.EscrowEndDate ∧
    (r.MobileConfirmationRequired = false →
      (sendTradeOffer s env offer sid token).2.ConfirmationMethod =
        offer.ConfirmationMethod) := by
  obtain ⟨mE, nE, rt, nC, nU⟩ := env
  have hr2 : rt = SendRoundTrip.resp (SendBody.decoded r) := hr
  subst hr2
  cases mE with
  | some e1 => simp [sendTradeOffer] at hok
  | none =>
    cases nE with
    | some e1 => simp [sendTradeOffer] at hok
    | none =>
      by_cases h1 : r.ErrorMessage.length = 0
      · by_cases h2 : r.ID = 0
        · simp [sendTradeOffer, h1, h2] at hok
        · cases h3 : r.MobileConfirmationRequired <;>
            simp [sendTradeOffer, h1, h2, h3]
      · simp [sendTradeOffer, h1] at hok

/-- C10 witness: a concrete successful send without a mobile demand
preserves the message and the prior ConfirmationMethod. -/
theorem sendTradeOffer_success_frame_witness :
    ((sendTradeOffer session0 sendEnvPlain offer0 0 "").1 = Except.ok ()) ∧
    (sendTradeOffer session0 sendEnvPlain offer0 0 "").2.Message = offer0.Message ∧
    (sendTradeOffer session0 sendEnvPlain offer0 0 "").2.ConfirmationMethod =
      offer0.ConfirmationMethod := by
  have h := sendTradeOffer_success_frame session0 sendEnvPlain offer0 0 ""
    sendRespPlain rfl rfl
  exact ⟨rfl, h.2.1, h.2.2.2.2.2.2 rfl⟩

/-- C7: each GetTradeOffers filter flag independently toggles exactly
its own request parameters: a parameter is present exactly when its flag
is set, the query never holds a key outside the documented seven, and
the mask SentOffers with ActiveOnly yields get_sent_offers, active_only
and the cutoff seconds while omitting get_received_offers. -/
theorem getTradeOffers_flag_independence (apiKey : String) (filter : Nat)
    (cutoffUnix : Int) :
    ((getTradeOffersParams apiKey filter cutoffUnix).lookup "key" = some apiKey) ∧
    ((getTradeOffersParams apiKey filter cutoffUnix).lookup "get_sent_offers" =
      if testBit filter TradeFilterSentOffers then some "1" else none) ∧
    ((getTradeOffersParams apiKey filter cutoffUnix).lookup "get_received_offers" =
      if testBit filter TradeFilterRecvOffers then some "1" else none) ∧
    ((getTradeOffersParams apiKey filter cutoffUnix).lookup "active_only" =
      if testBit filter TradeFilterActiveOnly then some "1" else none) ∧
    ((getTradeOffersParams apiKey filter cutoffUnix).lookup "time_historical_cutoff" =
      if testBit filter TradeFilterActiveOnly then some (toString cutoffUnix) else none) ∧
    ((getTradeOffersParams apiKey filter cutoffUnix).lookup "get_descriptions" =
      if testBit filter TradeFilterItemDescriptions then some "1" else none) ∧
    ((getTradeOffersParams apiKey filter cutoffUnix).lookup "historical_only" =
      if testBit filter TradeFilterHistoricalOnly then some "1" else none) ∧
    (∀ kv ∈ getTradeOffersParams apiKey filter cutoffUnix,
      kv.1 = "key" ∨ kv.1 = "get_sent_offers" ∨ kv.1 = "get_received_offers" ∨
      kv.1 = "active_only" ∨ kv.1 = "time_historical_cutoff" ∨
      kv.1 = "get_descriptions" ∨ kv.1 = "historical_only") ∧
    ((getTradeOffersParams apiKey (TradeFilterSentOffers ||| TradeFilterActiveOnly)
        cutoffUnix).lookup "get_sent_offers" = some "1") ∧
    ((getTradeOffersParams apiKey (TradeFilterSentOffers ||| TradeFilterActiveOnly)
        cutoffUnix).lookup "active_only" = some "1") ∧
    ((getTradeOffersParams apiKey (TradeFilterSentOffers ||| TradeFilterActiveOnly)
        cutoffUnix).lookup "time_historical_cutoff" = some (toString cutoffUnix)) ∧
    ((getTradeOffersParams apiKey (TradeFilterSentOffers ||| TradeFilterActiveOnly)
        cutoffUnix).lookup "get_received_offers" = none) := by
  refine ⟨?_, ?_, ?_, ?_, ?_, ?_, ?_, ?_, rfl, rfl, rfl, rfl⟩ <;>
  · cases hs : testBit filter TradeFilterSentOffers <;>
    cases hr : testBit filter TradeFilterRecvOffers <;>
    cases ha : testBit filter TradeFilterActiveOnly <;>
    cases hd : testBit filter TradeFilterItemDescriptions <;>
    cases hh : testBit filter TradeFilterHistoricalOnly <;>
    simp [getTradeOffersParams, hs, hr, ha, hd, hh, List.lookup]

/-- C7 witness: the key-coverage clause at one concrete element of the
concrete mask SentOffers with ActiveOnly. -/
theorem getTradeOffers_flag_independence_witness :
    (("active_only", "1") ∈
      getTradeOffersParams "k" (TradeFilterSentOffers ||| TradeFilterActiveOnly) 77) ∧
    (("active_only", "1").1 = "key" ∨ ("active_only", "1").1 = "get_sent_offers" ∨
      ("active_only", "1").1 = "get_received_offers" ∨
      ("active_only", "1").1 = "active_only" ∨
      ("active_only", "1").1 = "time_historical_cutoff" ∨
      ("active_only", "1").1 = "get_descriptions" ∨
      ("active_only", "1").1 = "historical_only") :=
  ⟨by decide,
   (getTradeOffers_flag_independence "k"
      (TradeFilterSentOffers ||| TradeFilterActiveOnly) 77).2.2.2.2.2.2.2.1
    ("active_only", "1") (by decide)⟩

/-- C8 counterexample: on a page where the token pattern matches twice,
GetMyTradeToken succeeds with the first capture instead of failing, so
the claim that any match count other than one fails is false. -/
theorem getMyTradeToken_two_matches_counterexample :
    findTokenMatch tokenPage2 = some ("aa".toList, " token=bb".toList) ∧
    findTokenMatch " token=bb".toList = some ("bb".toList, []) ∧
    getMyTradeToken (TokenRoundTrip.resp 200 (TokenBody.content tokenPage2)) =
      Except.ok "aa" := by
  refine ⟨by decide, by decide, ?_⟩
  rfl

/-- C8 amended: on a fetched 200 page, GetMyTradeToken fails with
ErrCannotFindOfferInfo exactly when the token pattern has no match, and
otherwise returns the capture of the first, leftmost match, regardless
of how many later matches exist. -/
theorem getMyTradeToken_first_match (body : List Char) :
    (findTokenMatch body = none →
      getMyTradeToken (TokenRoundTrip.resp 200 (TokenBody.content body)) =
        Except.error ErrCannotFindOfferInfo) ∧
    (∀ run rest, findTokenMatch body = some (run, rest) →
      getMyTradeToken (TokenRoundTrip.resp 200 (TokenBody.content body)) =
        Except.ok (String.mk run)) := by
  constructor
  · intro h
    simp [getMyTradeToken, h]
  · intro run rest h
    simp [getMyTradeToken, h]

/-- C8 witness: the amended behaviour at a one-match page and at a
no-match page. -/
theorem getMyTradeToken_first_match_witness :
    (findTokenMatch "token=zz".toList = some ("zz".toList, [])) ∧
    (getMyTradeToken (TokenRoundTrip.resp 200 (TokenBody.content "token=zz".toList)) =
      Except.ok (String.mk "zz".toList)) ∧
    (findTokenMatch "xy".toList = none) ∧
    (getMyTradeToken (TokenRoundTrip.resp 200 (TokenBody.content "xy".toList)) =
      Except.error ErrCannotFindOfferInfo) :=
  ⟨by decide,
   (getMyTradeToken_first_match ("token=zz".toList)).2 "zz".toList [] (by decide),
   by decide,
   (getMyTradeToken_first_match ("xy".toList)).1 (by decide)⟩

end Steam
